import Mathlib

/-!
Verification development for the Telegram-Gemini-Bot repository.

The definitions below are a shallow embedding of the message-handling core:
the request classifier, context assembler, circuit breaker and the
success/failure bookkeeping of `TextHandler.handle_text_message`
(src/handlers/text_handlers.py), `GeminiAPI` (src/services/gemini_api.py)
and `DeepSeekHandler` (src/services/model_handlers/deepseek_handler.py).
Strings are modelled as Lean `String`s; Python string primitives
(`in`, `find`, `strip`, `startswith`, `lower`, slicing) are implemented
character-list by character-list below.
-/

set_option maxRecDepth 100000

namespace TGBot

/-- The characters of a string, in order (Python treats strings as char sequences). -/
def chars (s : String) : List Char := s.data

/-- Rebuild a string from characters. -/
def strOf (l : List Char) : String := String.mk l

/-- Python `hay.startswith(needle)` on char lists (needle first argument). -/
def startsWith : List Char → List Char → Bool
  | [], _ => true
  | _ :: _, [] => false
  | a :: as, b :: bs => a == b && startsWith as bs

/-- Python `needle in hay` (substring containment). -/
def pyIn (needle : List Char) : List Char → Bool
  | [] => needle.isEmpty
  | c :: rest => startsWith needle (c :: rest) || pyIn needle rest

/-- Python `hay.find(needle)` restricted to the found case (`none` when absent). -/
def findSub (needle : List Char) : List Char → Option Nat
  | [] => if needle.isEmpty then some 0 else none
  | c :: rest =>
    if startsWith needle (c :: rest) then some 0
    else (findSub needle rest).map (· + 1)

/-- Python `s.strip()`: drop whitespace from both ends. -/
def pyStrip (l : List Char) : List Char :=
  ((l.dropWhile Char.isWhitespace).reverse.dropWhile Char.isWhitespace).reverse

/-- Python `s.lower()` (ASCII case folding, as used by the handler's keywords). -/
def lowerChars (l : List Char) : List Char := l.map Char.toLower

/-- Python `l[-n:]` for a positive `n`: the most recent `n` elements. -/
def takeLast {α : Type} (n : Nat) (l : List α) : List α := l.drop (l.length - n)

/-!
Request classifier: `TextHandler.handle_text_message` lines 92-101 (keyword
flags) and `TextHandler.detect_image_generation_request` lines 540-593.
-/

/-- Keyword list `image_related_keywords` (text_handlers.py line 93). -/
def image_related_keywords : List String :=
  ["image", "picture", "photo", "pic", "img", "that image", "the picture"]

/-- Keyword list `document_related_keywords` (text_handlers.py lines 94-98). -/
def document_related_keywords : List String :=
  ["document", "doc", "file", "pdf", "that document", "the file", "the pdf",
   "tell me more", "more information", "more details", "explain further",
   "tell me about it", "what else", "elaborate"]

/-- Python `keyword in message_text.lower()`. -/
def containsKeyword (msg kw : String) : Bool :=
  pyIn (chars kw) (lowerChars (chars msg))

/-- `referring_to_image` flag (text_handlers.py line 100). -/
def referring_to_image (msg : String) : Bool :=
  image_related_keywords.any (containsKeyword msg)

/-- `referring_to_document` flag (text_handlers.py line 101). -/
def referring_to_document (msg : String) : Bool :=
  document_related_keywords.any (containsKeyword msg)

/-- Trigger list `image_triggers` (text_handlers.py lines 559-566), source order. -/
def image_triggers : List String :=
  ["generate an image", "generate image", "create an image", "create image",
   "make an image", "make image", "draw", "generate a picture", "create a picture",
   "generate img", "create img", "make img", "generate a photo", "image of",
   "picture of", "photo of", "draw me", "generate me an image", "create me an image",
   "make me an image", "generate me a picture", "can you generate an image",
   "can you create an image", "i want an image of", "please make an image"]

/-- Insert a string into a list sorted by descending length, keeping elements
of equal length in their existing order (stability of Python `sorted`). -/
def insertByLen (x : String) : List String → List String
  | [] => [x]
  | y :: ys => if y.length ≤ x.length then x :: y :: ys else y :: insertByLen x ys

/-- Python `sorted(l, key=len, reverse=True)`: stable descending length sort. -/
def sortByLenDesc : List String → List String
  | [] => []
  | x :: xs => insertByLen x (sortByLenDesc xs)

/-- Filler-word list `clean_words` (text_handlers.py line 582). -/
def clean_words : List String :=
  ["of", "about", "showing", "depicting", "that shows", "with", ":", "-"]

/-- The filler-stripping loop (text_handlers.py lines 584-586): each word of
`clean_words` is tried once, in order; when the prompt (lowercased) starts
with the word plus a space, the word is dropped and the remainder stripped. -/
def stripFillers : List String → List Char → List Char
  | [], r => r
  | w :: ws, r =>
    if startsWith (chars w ++ [' ']) (lowerChars r) then
      stripFillers ws (pyStrip (r.drop (chars w).length))
    else stripFillers ws r

/-- `text_lower = text.lower().strip()` (text_handlers.py line 556). -/
def textLowerOf (text : String) : List Char := pyStrip (lowerChars (chars text))

/-- Prompt extraction for a detected image request (text_handlers.py lines
571-589): the first trigger of the length-sorted list that occurs in the
lowered text wins; everything after its first occurrence is kept, stripped,
and run through the filler loop. -/
def extractPrompt (text : String) : String :=
  match (sortByLenDesc image_triggers).find?
      (fun t => pyIn (chars t) (textLowerOf text)) with
  | some t =>
    match findSub (chars t) (textLowerOf text) with
    | some pos =>
      strOf (stripFillers clean_words (pyStrip ((chars text).drop (pos + (chars t).length))))
    | none => text
  | none => text

/-- `TextHandler.detect_image_generation_request` (text_handlers.py lines
540-593) as a pure function from the message text to `(is_image_request,
image_prompt)`. -/
def detect_image_generation_request (text : String) : Bool × String :=
  if text = "" then (false, "")
  else if image_triggers.any (fun t => pyIn (chars t) (textLowerOf text)) then
    (true, extractPrompt text)
  else (false, "")

/-!
Context assembler: `TextHandler.get_image_context` (lines 487-509),
`TextHandler.get_document_context` (lines 511-538) and the enhanced-prompt
construction of `handle_text_message` (lines 122-145). History entries in
`context.user_data` are Python dicts or invalid values; records are modelled
with the fields the code reads, `Option` marking a possibly-missing key, and
`none` at the list level marking a non-dict entry.
-/

/-- An `image_history` entry as read by `get_image_context`. -/
structure ImageRecord where
  caption : Option String
  description : Option String
deriving DecidableEq

/-- A `document_history` entry as read by `get_document_context`
(only `file_name` and `full_response` are read there; `summary` is the
truncated copy stored by the document pipeline, message_handlers.py 711-714). -/
structure DocRecord where
  file_name : Option String
  summary : Option String
  full_response : Option String
deriving DecidableEq

/-- One `"[Image {idx+1}]: ..."` block (text_handlers.py lines 496-507):
invalid entries are skipped but still advance the enumeration index. -/
def imageEntries (idx : Nat) : List (Option ImageRecord) → String
  | [] => ""
  | none :: rest => imageEntries (idx + 1) rest
  | some r :: rest =>
    let caption := r.caption.getD "No caption"
    let description := r.description.getD "No description"
    let truncated_description :=
      if description = "" then "No description"
      else if 100 < description.length then description.take 100 ++ "..."
      else description
    "[Image " ++ toString (idx + 1) ++ "]: Caption: " ++ caption
      ++ "\nDescription: " ++ truncated_description ++ "\n\n"
      ++ imageEntries (idx + 1) rest

/-- `TextHandler.get_image_context` (text_handlers.py lines 487-509). -/
def get_image_context (imageHistory : List (Option ImageRecord)) : String :=
  if imageHistory = [] then ""
  else "Recently analyzed images:\n" ++ imageEntries 0 (takeLast 3 imageHistory)

/-- `TextHandler.get_document_context` (text_handlers.py lines 511-538):
only the most recent record is used, and its `full_response` is embedded
verbatim, followed by the fixed elaboration instruction. -/
def get_document_context (documentHistory : List (Option DocRecord)) : String :=
  if documentHistory = [] then ""
  else
    match documentHistory.getLast? with
    | some (some r) =>
      let file_name := r.file_name.getD "Unknown document"
      let full_response := r.full_response.getD "No content summary available"
      "Recently analyzed document: " ++ file_name ++ "\n\n"
        ++ "Full content summary:\n" ++ full_response ++ "\n\n"
        ++ "Please provide additional details or answer follow-up questions about this document."
    | some none => "Invalid document history entry."
    | none => ""

/-- The enhanced-prompt construction of `handle_text_message` (text_handlers.py
lines 122-145): image context first, document context second, and a final
branch that rebuilds the prompt from the document context alone whenever the
message contains "tell me more" or "more details". -/
def buildEnhancedPrompt (msg : String) (imageHistory : List (Option ImageRecord))
    (documentHistory : List (Option DocRecord)) : String :=
  let step1 :=
    if referring_to_image msg && !(decide (imageHistory = [])) then
      ("The user is referring to previously shared images. Here's the context of those images:\n\n"
        ++ get_image_context imageHistory ++ "\n\nUser's question: " ++ msg, true)
    else (msg, false)
  let step2 :=
    if referring_to_document msg && !(decide (documentHistory = [])) then
      if step1.2 then
        (step1.1 ++ "\n\nThe user is also referring to previously processed documents. Document context:\n\n"
          ++ get_document_context documentHistory, true)
      else
        ("The user is referring to previously processed documents. Here's the context of those documents:\n\n"
          ++ get_document_context documentHistory ++ "\n\nUser's question: " ++ msg, true)
    else step1
  if (containsKeyword msg "tell me more" || containsKeyword msg "more details")
      && !(decide (documentHistory = [])) then
    "The user wants more information about the previously analyzed document. Here's the document context:\n\n"
      ++ get_document_context documentHistory
      ++ "\n\nProvide more detailed analysis focusing on aspects not covered in the initial response."
  else step2.1

/-- The style block chosen by `_apply_response_guidelines` (text_handlers.py
lines 595-627); the exact triple-quoted literals of the source. -/
def style_instruction (preferred_model : String) : String :=
  if preferred_model = "deepseek" then
    "\n                Please follow these guidelines for your response:\n                - Provide detailed analytical responses\n                - Include code examples for programming questions\n                - Use logical organization with headers\n                - Start with the most important information\n                - End complex responses with a follow-up question\n                "
  else
    "\n                Please follow these guidelines for your response:\n                - Use straightforward language and explain technical terms\n                - Focus on essential information first\n                - Include code examples for programming questions\n                - Use a professional yet conversational tone\n                - End with a follow-up question when appropriate\n                "

/-- `TextHandler._apply_response_guidelines`: the style block is prepended to
the prompt (text_handlers.py line 623). -/
def apply_response_guidelines (prompt preferred_model : String) : String :=
  style_instruction preferred_model ++ "\n\nUser query: " ++ prompt

/-!
Conversation history and the Gemini conversation builder:
`handle_text_message` lines 110-120 (validity filter) and 242-250 (the
nine-turn slice), `GeminiAPI._generate_response_impl` lines 357-426, and
`DeepSeekHandler.generate_response` lines 47-54.
-/

/-- A stored history entry: either not a dict at all (`invalid`), or a dict
whose `role`/`content` keys may each be missing. -/
inductive HistEntry where
  | invalid
  | dict (role : Option String) (content : Option String)
deriving DecidableEq

/-- The filter of text_handlers.py line 120: keep `item` when it is truthy,
a dict, and has both the `role` and the `content` key. -/
def isValidEntry : HistEntry → Bool
  | .dict (some _) (some _) => true
  | _ => false

/-- `user_context = [item for item in user_context if ...]` (line 120). -/
def filterValidContext (l : List HistEntry) : List HistEntry :=
  l.filter isValidEntry

/-- One `genai.types.ContentDict(role=..., parts=[...])` of the Gemini
conversation; parts always hold a single string in this code. -/
structure ContentDict where
  role : String
  parts : String
deriving DecidableEq

/-- The per-message conversion of `_generate_response_impl` lines 412-420:
a context entry contributes a turn only when it is a dict with both keys and
both values truthy; `role == "user"` maps to `"user"`, anything else to
`"model"`. -/
def toConvTurn : HistEntry → Option ContentDict
  | .dict (some role) (some content) =>
    if role ≠ "" ∧ content ≠ "" then
      some ⟨if role = "user" then "user" else "model", content⟩
    else none
  | _ => none

/-- The fixed system message of `_generate_response_impl` (line 366). -/
def system_message : String :=
  "You are DeepGem, an AI assistant that can help with various tasks."

/-- The fixed memory note of `_generate_response_impl` (lines 374-377). -/
def memory_context : String :=
  "You have the ability to remember previous conversations including descriptions of images and documents the user has shared. When answering, consider text conversations, image descriptions, and document content in your context. Reference relevant previous discussions when answering the user's current question."

/-- `max_context_entries` of `_generate_response_impl` (line 401). -/
def max_context_entries : Nat := 15

/-- The synthetic truncation note of `_generate_response_impl` (line 408). -/
def omissionNote (omitted : Nat) : String :=
  "Note: There are " ++ toString omitted
    ++ " earlier messages in our conversation that aren't shown here."

/-- Python truthiness of an optional string. -/
def optTruthy : Option String → Bool
  | some s => s ≠ ""
  | none => false

/-- The conversation built by `GeminiAPI._generate_response_impl`
(gemini_api.py lines 362-426): system and memory turns, optional image and
document context turns, the truncation note when more than fifteen context
entries were passed, the most recent fifteen context entries (converted and
filtered), and finally the prompt itself. -/
def buildConversation (prompt : String) (context : List HistEntry)
    (image_context document_context : Option String) : List ContentDict :=
  [⟨"user", system_message⟩, ⟨"user", memory_context⟩]
    ++ (if optTruthy image_context then
          [⟨"user", "Image context: " ++ image_context.getD ""⟩] else [])
    ++ (if optTruthy document_context then
          [⟨"user", "Document context: " ++ document_context.getD ""⟩] else [])
    ++ (if context ≠ [] then
          (if max_context_entries < context.length then
            [⟨"user", omissionNote (context.length - max_context_entries)⟩] else [])
          ++ ((if max_context_entries < context.length then
                takeLast max_context_entries context else context).filterMap toConvTurn)
        else [])
    ++ [⟨"user", prompt⟩]

/-- `self.max_context_length` of `TextHandler` (text_handlers.py line 20). -/
def max_context_length : Nat := 9

/-- The context argument `user_context[-self.max_context_length:] if
user_context else []` passed to the Gemini call (text_handlers.py line 247). -/
def contextForGemini (filtered : List HistEntry) : List HistEntry :=
  if filtered ≠ [] then takeLast max_context_length filtered else []

/-- The Gemini conversation actually produced for a text message: stored
history is validity-filtered (line 120), sliced to the nine most recent turns
(line 247), and handed to `_generate_response_impl` with no image or document
context arguments (line 245 passes only `prompt` and `context`). -/
def conversationForTextMessage (prompt : String) (storedHistory : List HistEntry) :
    List ContentDict :=
  buildConversation prompt (contextForGemini (filterValidContext storedHistory)) none none

/-- The context messages appended by `DeepSeekHandler.generate_response`
(deepseek_handler.py lines 47-58): invalid entries are skipped, valid ones
are appended verbatim. -/
def deepseekContextMessages (context : List HistEntry) : List ContentDict :=
  context.filterMap fun e =>
    match e with
    | .dict (some role) (some content) => some ⟨role, content⟩
    | _ => none

/-!
Circuit breaker and the Gemini response wrapper:
`GeminiAPI.call_with_circuit_breaker` (gemini_api.py lines 124-150),
the thresholds of `__init__` (lines 78-79), and
`GeminiAPI.generate_response` (lines 345-355).
-/

/-- The per-API failure bookkeeping (`{api_name}_failures`,
`{api_name}_last_failure`, gemini_api.py lines 72-77). Times are seconds. -/
structure BreakerState where
  failures : Nat
  lastFailure : Nat
deriving DecidableEq

/-- `self.circuit_breaker_threshold = 5` (gemini_api.py line 78). -/
def circuit_breaker_threshold : Nat := 5

/-- `self.circuit_breaker_timeout = 300` (gemini_api.py line 79). -/
def circuit_breaker_timeout : Nat := 300

/-- The open-circuit test of line 131: failures at or above the threshold and
the last failure within the timeout window. -/
def circuitOpen (st : BreakerState) (now : Nat) : Bool :=
  decide (circuit_breaker_threshold ≤ st.failures)
    && decide (now - st.lastFailure < circuit_breaker_timeout)

/-- Outcome of the wrapped implementation call: it returns a value (possibly
`None`) or raises. -/
inductive ImplResult where
  | value (r : Option String)
  | raised
deriving DecidableEq

/-- Outcome of `call_with_circuit_breaker`: short-circuited without invoking
the wrapped function, returned the wrapped function's value, or re-raised the
wrapped function's exception. -/
inductive CBOutcome where
  | shortCircuit
  | returned (r : Option String)
  | raisedThrough
deriving DecidableEq

/-- `GeminiAPI.call_with_circuit_breaker` (gemini_api.py lines 124-150) as a
state transformer, with the wrapped call's behaviour supplied as data. -/
def call_with_circuit_breaker (st : BreakerState) (now : Nat) (fn : ImplResult) :
    CBOutcome × BreakerState :=
  if circuitOpen st now then (.shortCircuit, st)
  else
    match fn with
    | .value r =>
      (.returned r,
        if optTruthy r && decide (0 < st.failures) then ⟨0, st.lastFailure⟩ else st)
    | .raised => (.raisedThrough, ⟨st.failures + 1, now⟩)

/-- Run a sequence of `(time, wrapped-call behaviour)` pairs through the
breaker, returning the final state. -/
def runBreakerCalls (st : BreakerState) : List (Nat × ImplResult) → BreakerState
  | [] => st
  | (now, fn) :: rest => runBreakerCalls (call_with_circuit_breaker st now fn).2 rest

/-- The fixed apology returned by `GeminiAPI.generate_response` when the
protected call raises (gemini_api.py line 355). -/
def apology_message : String :=
  "I'm sorry, I'm having trouble processing your request. Please try again later."

/-- `GeminiAPI.generate_response` (gemini_api.py lines 345-355): delegates to
the circuit breaker and converts a raised exception into the fixed apology
string; a short-circuit yields `None`. -/
def generate_response (st : BreakerState) (now : Nat) (fn : ImplResult) :
    Option String × BreakerState :=
  match call_with_circuit_breaker st now fn with
  | (.shortCircuit, st2) => (none, st2)
  | (.returned r, st2) => (r, st2)
  | (.raisedThrough, st2) => (some apology_message, st2)

/-!
The tail of `handle_text_message` (text_handlers.py lines 226-354): awaiting
the model call and updating history, plus the image-generation short-circuit
of lines 147-209.
-/

/-- How the awaited model invocation ended, as observed by
`handle_text_message`: `asyncio.TimeoutError`, another exception, or
completion with a value (possibly `None`). -/
inductive AwaitOutcome where
  | timedOut
  | raisedExc
  | completed (r : Option String)
deriving DecidableEq

/-- The user-visible result of the handler. -/
inductive Reply where
  | timeoutMsg
  | errorMsg
  | emptyMsg
  | text (s : String)
  | photo (caption : String)
deriving DecidableEq

/-- Lines 251-354 of `handle_text_message`: timeout and exception return the
fixed apologetic replies without touching history; a `None` response likewise;
a returned string is delivered, and history receives the raw
`message_text`/response pair only when the response is truthy (lines 340-343). -/
def handleTextResult (message_text : String) (history : List HistEntry)
    (outcome : AwaitOutcome) : List HistEntry × Reply :=
  match outcome with
  | .timedOut => (history, .timeoutMsg)
  | .raisedExc => (history, .errorMsg)
  | .completed none => (history, .emptyMsg)
  | .completed (some r) =>
    if r ≠ "" then
      (history ++ [HistEntry.dict (some "user") (some message_text),
                   HistEntry.dict (some "assistant") (some r)], .text r)
    else (history, .text r)

/-- Whether `generate_image_with_imagen3` returned bytes (truthy) or not. -/
inductive ImageGenResult where
  | ok
  | failed
deriving DecidableEq

/-- The image-generation short-circuit of `handle_text_message` (lines
147-209): when the classifier detects an image request with a non-empty
prompt and generation succeeds, the handler replies with the photo, appends
the synthetic context pair (lines 186-193), and returns early; otherwise the
normal text path runs. -/
def routeMessage (message_text : String) (imageGen : ImageGenResult)
    (textOutcome : AwaitOutcome) (history : List HistEntry) : List HistEntry × Reply :=
  let d := detect_image_generation_request message_text
  if d.1 && decide (d.2 ≠ "") then
    match imageGen with
    | .ok =>
      (history ++ [HistEntry.dict (some "user") (some ("Generate an image of: " ++ d.2)),
                   HistEntry.dict (some "assistant")
                     (some ("Here's the image I generated of " ++ d.2 ++ "."))],
       .photo ("Generated image of: " ++ d.2))
    | .failed => handleTextResult message_text history textOutcome
  else handleTextResult message_text history textOutcome

/-!
Model selection: `handle_text_message` lines 213-250 and
`ModelHandlerFactory.get_model_handler` (factory.py lines 36-58).
-/

/-- What `get_user_preference(user_id, "preferred_model")` did: returned a
value (possibly `None`) or raised. -/
inductive PrefLookup where
  | ok (v : Option String)
  | raised
deriving DecidableEq

/-- Lines 213-221: a `None` preference or a lookup exception both default to
`"gemini"`. -/
def resolve_preferred_model : PrefLookup → String
  | .ok (some v) => v
  | .ok none => "gemini"
  | .raised => "gemini"

/-- The two model invocation paths of lines 226-250. -/
inductive ModelPath where
  | deepseek
  | gemini
deriving DecidableEq

/-- Line 227: `if preferred_model == "deepseek"` selects DeepSeek, everything
else falls to the Gemini branch. -/
def selectModelPath (preferred_model : String) : ModelPath :=
  if preferred_model = "deepseek" then .deepseek else .gemini

/-- The model names for which `ModelHandlerFactory.get_model_handler` has a
construction branch (factory.py lines 36-56). -/
def registered_models : List String := ["gemini", "deepseek", "quasar_alpha"]

/-- `ModelHandlerFactory.get_model_handler` outcome on a cache miss: a handler
for a registered name, `ValueError` otherwise (factory.py line 56). -/
def factory_get_model_handler (model_name : String) : Except String String :=
  if model_name ∈ registered_models then .ok model_name
  else .error ("Unknown model: " ++ model_name)

/-- Spec-side reading of claim C6 ("the remainder after the longest matching
trigger, with one leading filler word stripped"): strip the first filler word
of `clean_words` that the remainder starts with, once, and nothing more. Kept
separate from `stripFillers`, the loop the source actually runs. -/
def spec_one_filler_strip (r : List Char) : List Char :=
  match clean_words.find? (fun w => startsWith (chars w ++ [' ']) (lowerChars r)) with
  | some w => pyStrip (r.drop (chars w).length)
  | none => r

/-- A 2,000-character document analysis, used to witness claim C7. -/
def sample_full_response : String := strOf (List.replicate 2000 'x')

/-- A concrete document record whose `full_response` has 2,000 characters. -/
def sample_doc_record : DocRecord :=
  ⟨some "report.pdf", some "short summary", some sample_full_response⟩

/-!
Shared helper lemmas.
-/

/-- Splitting `chars` over string concatenation. -/
theorem chars_append (a b : String) : chars (a ++ b) = chars a ++ chars b := by
  simp [chars]

/-- `takeLast n` never yields more than `n` elements. -/
theorem takeLast_length_le {α : Type} (n : Nat) (l : List α) :
    (takeLast n l).length ≤ n := by
  simp [takeLast]
  omega

/-- `takeLast n` of a non-empty list is non-empty for positive `n`. -/
theorem takeLast_ne_nil {α : Type} {l : List α} (h : l ≠ []) {n : Nat} (hn : 0 < n) :
    takeLast n l ≠ [] := by
  have hpos : 0 < l.length := List.length_pos.mpr h
  rw [Ne, takeLast, List.drop_eq_nil_iff]
  omega

/-- A successful substring test yields a position for `findSub`. -/
theorem pyIn_findSub {needle hay : List Char} (h : pyIn needle hay = true) :
    ∃ pos, findSub needle hay = some pos := by
  induction hay with
  | nil =>
    refine ⟨0, ?_⟩
    simp [pyIn] at h
    simp [findSub, h]
  | cons c rest ih =>
    by_cases hs : startsWith needle (c :: rest) = true
    · exact ⟨0, by simp [findSub, hs]⟩
    · simp [pyIn, hs] at h
      obtain ⟨pos, hpos⟩ := ih h
      exact ⟨pos + 1, by simp [findSub, hs, hpos]⟩

/-- A `true` `List.any` yields a `List.find?` hit. -/
theorem any_imp_find {α : Type} {p : α → Bool} {l : List α} (h : l.any p = true) :
    ∃ a, l.find? p = some a := by
  induction l with
  | nil => simp at h
  | cons x xs ih =>
    by_cases hx : p x = true
    · exact ⟨x, by simp [List.find?, hx]⟩
    · simp [List.any_cons, hx] at h
      obtain ⟨a, ha⟩ := ih (List.any_eq_true.mpr h)
      exact ⟨a, by simp [List.find?, hx, ha]⟩

/-- In a list ordered by non-increasing length, the first hit of `find?` has
maximal length among the hits. -/
theorem find_first_maximal {p : String → Bool} {l : List String} {t : String}
    (hsort : l.Pairwise (fun a b => b.length ≤ a.length))
    (hfind : l.find? p = some t) :
    ∀ t' ∈ l, p t' = true → t'.length ≤ t.length := by
  induction l with
  | nil => simp at hfind
  | cons x xs ih =>
    rcases List.pairwise_cons.mp hsort with ⟨hx, hxs⟩
    by_cases hpx : p x = true
    · rw [List.find?_cons_of_pos _ hpx] at hfind
      injection hfind with ht
      subst ht
      intro t' ht' _
      rcases List.mem_cons.mp ht' with rfl | h2
      · exact le_refl _
      · exact hx t' h2
    · rw [List.find?_cons_of_neg _ hpx] at hfind
      intro t' ht' hpt'
      rcases List.mem_cons.mp ht' with rfl | h2
      · exact absurd hpt' hpx
      · exact ih hxs hfind t' h2 hpt'

/-!
Claim theorems.
-/

/-- C2: the claim says a model-invocation failure never mutates history. The
handler-level timeout, handler-level exception and `None`-response paths
indeed leave history untouched, but when the wrapped Gemini implementation
raises, `GeminiAPI.generate_response` swallows the exception and returns the
fixed apology string; `handle_text_message` then treats that truthy string as
a successful response and appends it (together with the user's message) to
history, contradicting the claim and the code's own comment at line 340
("Update user context only if response was successful"). -/
theorem failure_pollutes_history_bug :
    (generate_response ⟨0, 0⟩ 100 .raised).1 = some apology_message
    ∧ (handleTextResult "hello" [] (.completed (some apology_message))).1
        = [HistEntry.dict (some "user") (some "hello"),
           HistEntry.dict (some "assistant") (some apology_message)]
    ∧ (handleTextResult "hello" [] .timedOut).1 = []
    ∧ (handleTextResult "hello" [] .raisedExc).1 = []
    ∧ (handleTextResult "hello" [] (.completed none)).1 = [] := by
  refine ⟨by decide, by decide, by decide, by decide, by decide⟩

/-- C3 counterexample: a stored history of sixteen valid turns exceeds both
the handler's bound of nine and the implementation's bound of fifteen, yet
the conversation sent to the model carries the nine most recent turns and no
synthetic omission note at all — the claim demands exactly one such note. -/
theorem bounded_context_counterexample :
    let h : List HistEntry := List.replicate 16 (HistEntry.dict (some "user") (some "hi"))
    (filterValidContext h).length = 16
    ∧ max_context_length < 16 ∧ max_context_entries < 16
    ∧ conversationForTextMessage "hello" h
        = [⟨"user", system_message⟩, ⟨"user", memory_context⟩]
          ++ List.replicate 9 (⟨"user", "hi"⟩ : ContentDict) ++ [⟨"user", "hello"⟩]
    ∧ ((conversationForTextMessage "hello" h).filter
         (fun turn => startsWith (chars "Note: There are") (chars turn.parts))).length = 0 := by
  refine ⟨by decide, by decide, by decide, by decide, by decide⟩

/-- C3 amended: the conversation sent for a text message always consists of
the two fixed preamble turns, the (at most) nine most recent valid history
turns, and the prompt — never an omission note, because the handler slices
history to nine turns before `_generate_response_impl` applies its
fifteen-turn threshold. An omission note (exactly one, naming the number of
omitted entries) appears only when a context longer than fifteen entries is
passed to `_generate_response_impl` directly. -/
theorem bounded_context_amended :
    (∀ (prompt : String) (storedHistory : List HistEntry),
        conversationForTextMessage prompt storedHistory
          = [⟨"user", system_message⟩, ⟨"user", memory_context⟩]
            ++ (takeLast max_context_length (filterValidContext storedHistory)).filterMap toConvTurn
            ++ [⟨"user", prompt⟩])
    ∧ (∀ (prompt : String) (context : List HistEntry),
        max_context_entries < context.length →
        buildConversation prompt context none none
          = [⟨"user", system_message⟩, ⟨"user", memory_context⟩,
             ⟨"user", omissionNote (context.length - max_context_entries)⟩]
            ++ (takeLast max_context_entries context).filterMap toConvTurn
            ++ [⟨"user", prompt⟩]) := by
  constructor
  · intro prompt h
    by_cases hf : filterValidContext h = []
    · simp [conversationForTextMessage, buildConversation, contextForGemini, hf,
        optTruthy, takeLast]
    · have h9 : contextForGemini (filterValidContext h)
          = takeLast max_context_length (filterValidContext h) := by
        simp [contextForGemini, hf]
      have hlen : (takeLast max_context_length (filterValidContext h)).length
          ≤ max_context_length := takeLast_length_le _ _
      have hne : takeLast max_context_length (filterValidContext h) ≠ [] :=
        takeLast_ne_nil hf (by decide)
      have hnot15 : ¬ (max_context_entries
          < (takeLast max_context_length (filterValidContext h)).length) := by
        simp only [max_context_entries, max_context_length] at *
        omega
      simp [conversationForTextMessage, buildConversation, h9, hne, hnot15, optTruthy]
  · intro prompt context hlen
    have hne : context ≠ [] := by
      intro hcon
      rw [hcon] at hlen
      simp [max_context_entries] at hlen
    simp [buildConversation, optTruthy, hne, hlen]

/-- Witness for C3's amended theorem at a sixteen-entry direct context. -/
theorem bounded_context_witness :
    max_context_entries
        < (List.replicate 16 (HistEntry.dict (some "user") (some "hi"))).length
    ∧ buildConversation "p" (List.replicate 16 (HistEntry.dict (some "user") (some "hi"))) none none
        = [⟨"user", system_message⟩, ⟨"user", memory_context⟩,
           ⟨"user", omissionNote 1⟩]
          ++ (takeLast max_context_entries
                (List.replicate 16 (HistEntry.dict (some "user") (some "hi")))).filterMap toConvTurn
          ++ [⟨"user", "p"⟩] :=
  ⟨by decide, bounded_context_amended.2 "p" _ (by decide)⟩

/-- C4: the circuit breaker of `GeminiAPI.call_with_circuit_breaker`. With
five or more recorded failures and the last failure inside the 300-second
window, a call short-circuits: the wrapped function is not invoked and the
counter is untouched. Any non-short-circuited call whose wrapped function
returns a truthy value leaves the failure counter at zero. The concrete run
shows five consecutive failures opening the circuit at the sixth call, and the
first truthy success after the window resetting the counter to zero. -/
theorem circuit_breaker_behavior :
    (∀ (st : BreakerState) (now : Nat) (fn : ImplResult),
        circuit_breaker_threshold ≤ st.failures →
        now - st.lastFailure < circuit_breaker_timeout →
        call_with_circuit_breaker st now fn = (.shortCircuit, st))
    ∧ (∀ (st : BreakerState) (now : Nat) (r : Option String),
        circuitOpen st now = false → optTruthy r = true →
        ((call_with_circuit_breaker st now (.value r)).2).failures = 0)
    ∧ runBreakerCalls ⟨0, 0⟩
        [(10, .raised), (20, .raised), (30, .raised), (40, .raised), (50, .raised)]
        = ⟨5, 50⟩
    ∧ call_with_circuit_breaker ⟨5, 50⟩ 60 (.value (some "ok")) = (.shortCircuit, ⟨5, 50⟩)
    ∧ call_with_circuit_breaker ⟨5, 50⟩ 400 (.value (some "ok"))
        = (.returned (some "ok"), ⟨0, 50⟩) := by
  refine ⟨?_, ?_, by decide, by decide, by decide⟩
  · intro st now fn h1 h2
    have hopen : circuitOpen st now = true := by
      simp [circuitOpen, h1, h2]
    simp [call_with_circuit_breaker, hopen]
  · intro st now r hopen htruthy
    by_cases hz : 0 < st.failures
    · simp [call_with_circuit_breaker, hopen, htruthy, hz]
    · have hz0 : st.failures = 0 := by omega
      simp [call_with_circuit_breaker, hopen, htruthy, hz, hz0]

/-- C5: the message "generate an image of a sunset, tell me more about my
document" is detected as an image-generation request with the claimed
extracted prompt, even though it also matches the attachment-follow-up
keywords; when generation succeeds, the handler's reply is the generated
photo and the synthetic context pair, for every possible text-model outcome —
the attachment interpretation never determines the reply. -/
theorem trigger_precedence :
    detect_image_generation_request
        "generate an image of a sunset, tell me more about my document"
      = (true, "a sunset, tell me more about my document")
    ∧ referring_to_document
        "generate an image of a sunset, tell me more about my document" = true
    ∧ ∀ (textOutcome : AwaitOutcome) (history : List HistEntry),
        routeMessage "generate an image of a sunset, tell me more about my document"
            .ok textOutcome history
          = (history
              ++ [HistEntry.dict (some "user")
                    (some "Generate an image of: a sunset, tell me more about my document"),
                  HistEntry.dict (some "assistant")
                    (some "Here's the image I generated of a sunset, tell me more about my document.")],
             .photo "Generated image of: a sunset, tell me more about my document") := by
  refine ⟨by decide, by decide, ?_⟩
  intro textOutcome history
  rfl

/-- C6 counterexample: on "generate an image of about a cat" the longest
matching trigger is "generate an image" (position 0), the remainder is
"of about a cat", and the claim's one-filler-stripped reading gives
"about a cat" — but the code's loop strips both "of" and "about" and
extracts "a cat". -/
theorem longest_trigger_counterexample :
    (detect_image_generation_request "generate an image of about a cat").2 = "a cat"
    ∧ pyIn (chars "generate an image")
        (textLowerOf "generate an image of about a cat") = true
    ∧ (image_triggers.all fun t =>
        !(pyIn (chars t) (textLowerOf "generate an image of about a cat"))
          || decide (t.length ≤ ("generate an image" : String).length)) = true
    ∧ findSub (chars "generate an image")
        (textLowerOf "generate an image of about a cat") = some 0
    ∧ strOf (spec_one_filler_strip (pyStrip ((chars "generate an image of about a cat").drop
        (0 + (chars "generate an image").length)))) = "about a cat"
    ∧ ("a cat" : String) ≠ "about a cat" := by
  refine ⟨by decide, by decide, by decide, by decide, by decide, by decide⟩

/-- C6 amended: for every message matched by some trigger, the extracted
prompt is the remainder of the message after the first occurrence of a
longest matching trigger, stripped and run through the filler loop — which
strips each word of the fixed filler list at most once, in list order (not
exactly one word, as the claim reads). On "please make an image of a cat"
this yields "a cat" with no stray trigger fragments. -/
theorem longest_trigger_amended :
    (∀ text : String,
      image_triggers.any (fun t => pyIn (chars t) (textLowerOf text)) = true →
      ∃ t pos,
        t ∈ image_triggers
        ∧ pyIn (chars t) (textLowerOf text) = true
        ∧ (∀ t' ∈ image_triggers, pyIn (chars t') (textLowerOf text) = true →
            t'.length ≤ t.length)
        ∧ findSub (chars t) (textLowerOf text) = some pos
        ∧ (detect_image_generation_request text).2
            = strOf (stripFillers clean_words
                (pyStrip ((chars text).drop (pos + (chars t).length)))))
    ∧ detect_image_generation_request "please make an image of a cat" = (true, "a cat") := by
  constructor
  · intro text hmatch
    have htext : text ≠ "" := by
      intro hempty
      rw [hempty] at hmatch
      exact absurd hmatch (by decide)
    obtain ⟨t0, ht0mem, ht0⟩ := List.any_eq_true.mp hmatch
    have hincl : ∀ x ∈ image_triggers, x ∈ sortByLenDesc image_triggers := by decide
    have hincl2 : ∀ x ∈ sortByLenDesc image_triggers, x ∈ image_triggers := by decide
    have hany2 : (sortByLenDesc image_triggers).any
        (fun t => pyIn (chars t) (textLowerOf text)) = true :=
      List.any_eq_true.mpr ⟨t0, hincl t0 ht0mem, ht0⟩
    obtain ⟨t, hfind⟩ := any_imp_find hany2
    have hpt : pyIn (chars t) (textLowerOf text) = true := by
      have := List.find?_some hfind
      simpa using this
    have htmem : t ∈ image_triggers := hincl2 t (List.mem_of_find?_eq_some hfind)
    have hmax : ∀ t' ∈ image_triggers, pyIn (chars t') (textLowerOf text) = true →
        t'.length ≤ t.length := by
      intro t' ht' hp
      exact find_first_maximal (by decide) hfind t' (hincl t' ht') hp
    obtain ⟨pos, hpos⟩ := pyIn_findSub hpt
    refine ⟨t, pos, htmem, hpt, hmax, hpos, ?_⟩
    simp [detect_image_generation_request, htext, hmatch, extractPrompt, hfind, hpos]
  · decide

/-- Witness for C6's amended theorem at "please make an image of a cat". -/
theorem longest_trigger_witness :
    (image_triggers.any
        (fun t => pyIn (chars t) (textLowerOf "please make an image of a cat")) = true)
    ∧ ∃ t pos,
        t ∈ image_triggers
        ∧ pyIn (chars t) (textLowerOf "please make an image of a cat") = true
        ∧ (∀ t' ∈ image_triggers,
            pyIn (chars t') (textLowerOf "please make an image of a cat") = true →
            t'.length ≤ t.length)
        ∧ findSub (chars t) (textLowerOf "please make an image of a cat") = some pos
        ∧ (detect_image_generation_request "please make an image of a cat").2
            = strOf (stripFillers clean_words
                (pyStrip ((chars "please make an image of a cat").drop
                  (pos + (chars t).length)))) :=
  ⟨by decide, longest_trigger_amended.1 "please make an image of a cat" (by decide)⟩

/-- Witness for C4 at concrete states: an open circuit short-circuits a call
at time 60, and a closed circuit with a truthy result resets the counter. -/
theorem circuit_breaker_witness :
    (circuit_breaker_threshold ≤ (5 : Nat) ∧ (60 : Nat) - 50 < circuit_breaker_timeout
      ∧ call_with_circuit_breaker ⟨5, 50⟩ 60 .raised = (.shortCircuit, ⟨5, 50⟩))
    ∧ (circuitOpen ⟨5, 50⟩ 400 = false ∧ optTruthy (some "ok") = true
      ∧ ((call_with_circuit_breaker ⟨5, 50⟩ 400 (.value (some "ok"))).2).failures = 0) :=
  ⟨⟨by decide, by decide,
      circuit_breaker_behavior.1 ⟨5, 50⟩ 60 .raised (by decide) (by decide)⟩,
    ⟨by decide, by decide,
      circuit_breaker_behavior.2.1 ⟨5, 50⟩ 400 (some "ok") (by decide) (by decide)⟩⟩
/-- C1: on a successful text response, the two turns appended to history are
exactly the raw (mention-stripped) `message_text` with role "user" and the
raw model output with role "assistant"; the prompt actually sent starts with
the style-instruction block, while the stored user turn is the untouched
message — so whenever the raw message does not contain the style block, the
image context or the document context, neither does any stored user turn. -/
theorem history_fidelity
    (message_text r preferred_model : String) (history : List HistEntry)
    (imageHistory : List (Option ImageRecord)) (documentHistory : List (Option DocRecord))
    (hr : r ≠ "")
    (hstyle : pyIn (chars (style_instruction preferred_model)) (chars message_text) = false)
    (himg : imageHistory ≠ [] →
      pyIn (chars (get_image_context imageHistory)) (chars message_text) = false)
    (hdoc : documentHistory ≠ [] →
      pyIn (chars (get_document_context documentHistory)) (chars message_text) = false) :
    handleTextResult message_text history (.completed (some r))
        = (history ++ [HistEntry.dict (some "user") (some message_text),
                       HistEntry.dict (some "assistant") (some r)], .text r)
    ∧ (∃ rest, apply_response_guidelines
          (buildEnhancedPrompt message_text imageHistory documentHistory) preferred_model
          = style_instruction preferred_model ++ rest)
    ∧ (∀ c, HistEntry.dict (some "user") (some c)
          ∈ (handleTextResult message_text history (.completed (some r))).1.drop history.length →
        pyIn (chars (style_instruction preferred_model)) (chars c) = false
        ∧ (imageHistory ≠ [] →
            pyIn (chars (get_image_context imageHistory)) (chars c) = false)
        ∧ (documentHistory ≠ [] →
            pyIn (chars (get_document_context documentHistory)) (chars c) = false)) := by
  have heq : handleTextResult message_text history (.completed (some r))
      = (history ++ [HistEntry.dict (some "user") (some message_text),
                     HistEntry.dict (some "assistant") (some r)], .text r) := by
    simp [handleTextResult, hr]
  refine ⟨heq, ?_, ?_⟩
  · refine ⟨"\n\nUser query: "
      ++ buildEnhancedPrompt message_text imageHistory documentHistory, ?_⟩
    simp [apply_response_guidelines, String.append_assoc]
  · intro c hc
    rw [heq] at hc
    simp only [List.drop_left] at hc
    rcases List.mem_cons.mp hc with h1 | h2
    · injection h1 with hrole hcontent
      injection hcontent with hcontent
      subst hcontent
      exact ⟨hstyle, himg, hdoc⟩
    · rcases List.mem_cons.mp h2 with h3 | h4
      · injection h3 with hrole _
        injection hrole with hrole
        exact absurd hrole (by decide)
      · simp at h4

/-- Witness for C1: a plain message "hi" answered by "hello!" under the
default Gemini style, with one image and one document on record. -/
theorem history_fidelity_witness :
    ("hello!" : String) ≠ ""
    ∧ pyIn (chars (style_instruction "gemini")) (chars "hi") = false
    ∧ pyIn (chars (get_image_context [some ⟨some "cat", some "a cat"⟩])) (chars "hi") = false
    ∧ pyIn (chars (get_document_context [some ⟨some "r.pdf", some "s", some "full"⟩]))
        (chars "hi") = false
    ∧ handleTextResult "hi" [] (.completed (some "hello!"))
        = ([HistEntry.dict (some "user") (some "hi"),
            HistEntry.dict (some "assistant") (some "hello!")], .text "hello!") :=
  ⟨by decide, by decide, by decide, by decide, by
    have h := (history_fidelity "hi" "hello!" "gemini" []
      [some ⟨some "cat", some "a cat"⟩] [some ⟨some "r.pdf", some "s", some "full"⟩]
      (by decide) (by decide) (fun _ => by decide) (fun _ => by decide)).1
    simpa using h⟩

/-- C7: whenever the most recent document-history entry is a record whose
`full_response` is present, the document context embeds that `full_response`
verbatim and untruncated (never the `summary` field), followed by the fixed
elaboration instruction; and any message containing "tell me more" rebuilds
the prompt around exactly this context. -/
theorem document_followup_fidelity
    (documentHistory : List (Option DocRecord)) (rec0 : DocRecord) (full : String)
    (hlast : documentHistory.getLast? = some (some rec0))
    (hfull : rec0.full_response = some full) :
    get_document_context documentHistory
      = "Recently analyzed document: " ++ rec0.file_name.getD "Unknown document" ++ "\n\n"
        ++ "Full content summary:\n" ++ full ++ "\n\n"
        ++ "Please provide additional details or answer follow-up questions about this document."
    ∧ (∃ pre post, chars (get_document_context documentHistory)
        = pre ++ chars full ++ post)
    ∧ (∀ (msg : String) (imageHistory : List (Option ImageRecord)),
        containsKeyword msg "tell me more" = true →
        buildEnhancedPrompt msg imageHistory documentHistory
          = "The user wants more information about the previously analyzed document. Here's the document context:\n\n"
            ++ get_document_context documentHistory
            ++ "\n\nProvide more detailed analysis focusing on aspects not covered in the initial response.") := by
  have hne : documentHistory ≠ [] := by
    intro h
    rw [h] at hlast
    simp at hlast
  have heq : get_document_context documentHistory
      = "Recently analyzed document: " ++ rec0.file_name.getD "Unknown document" ++ "\n\n"
        ++ "Full content summary:\n" ++ full ++ "\n\n"
        ++ "Please provide additional details or answer follow-up questions about this document." := by
    simp [get_document_context, hne, hlast, hfull]
  refine ⟨heq, ?_, ?_⟩
  · refine ⟨chars ("Recently analyzed document: " ++ rec0.file_name.getD "Unknown document"
      ++ "\n\n" ++ "Full content summary:\n"),
      chars ("\n\n"
        ++ "Please provide additional details or answer follow-up questions about this document."), ?_⟩
    rw [heq]
    simp [chars_append, List.append_assoc]
    decide
  · intro msg imageHistory hkw
    simp [buildEnhancedPrompt, hkw, hne]

/-- Witness for C7 with a 2,000-character `full_response`: all 2,000
characters appear verbatim in the document context. -/
theorem document_followup_witness :
    ([some sample_doc_record] : List (Option DocRecord)).getLast?
        = some (some sample_doc_record)
    ∧ sample_doc_record.full_response = some sample_full_response
    ∧ (chars sample_full_response).length = 2000
    ∧ ∃ pre post,
        chars (get_document_context [some sample_doc_record])
          = pre ++ chars sample_full_response ++ post :=
  ⟨rfl, rfl, by simp [sample_full_response, strOf, chars],
    (document_followup_fidelity [some sample_doc_record] sample_doc_record
      sample_full_response rfl rfl).2.1⟩

/-- C8 counterexample: "tell me more about the image" refers to both images
and documents, both histories are non-empty, yet the enhanced prompt does not
contain the image context at all — the "tell me more" branch of
`handle_text_message` rebuilds the prompt from the document context alone. -/
theorem context_ordering_counterexample :
    referring_to_image "tell me more about the image" = true
    ∧ referring_to_document "tell me more about the image" = true
    ∧ ([some (⟨some "c", some "d"⟩ : ImageRecord)] : List (Option ImageRecord)) ≠ []
    ∧ ([some (⟨some "f", some "s", some "x"⟩ : DocRecord)] : List (Option DocRecord)) ≠ []
    ∧ pyIn (chars (get_image_context [some ⟨some "c", some "d"⟩]))
        (chars (buildEnhancedPrompt "tell me more about the image"
          [some ⟨some "c", some "d"⟩] [some ⟨some "f", some "s", some "x"⟩])) = false := by
  refine ⟨by decide, by decide, by decide, by decide, by decide⟩

/-- C8 amended: when a message refers to both images and documents, both
histories are non-empty, and the message contains neither "tell me more" nor
"more details", the enhanced prompt is the image block followed by the
document block — image context strictly before document context. -/
theorem context_ordering_amended (msg : String)
    (imageHistory : List (Option ImageRecord)) (documentHistory : List (Option DocRecord))
    (hri : referring_to_image msg = true)
    (hrd : referring_to_document msg = true)
    (himg : imageHistory ≠ [])
    (hdoc : documentHistory ≠ [])
    (hm1 : containsKeyword msg "tell me more" = false)
    (hm2 : containsKeyword msg "more details" = false) :
    buildEnhancedPrompt msg imageHistory documentHistory
      = "The user is referring to previously shared images. Here's the context of those images:\n\n"
        ++ get_image_context imageHistory ++ "\n\nUser's question: " ++ msg
        ++ "\n\nThe user is also referring to previously processed documents. Document context:\n\n"
        ++ get_document_context documentHistory
    ∧ ∃ p1 p2 p3, chars (buildEnhancedPrompt msg imageHistory documentHistory)
        = p1 ++ chars (get_image_context imageHistory) ++ p2
          ++ chars (get_document_context documentHistory) ++ p3 := by
  have heq : buildEnhancedPrompt msg imageHistory documentHistory
      = "The user is referring to previously shared images. Here's the context of those images:\n\n"
        ++ get_image_context imageHistory ++ "\n\nUser's question: " ++ msg
        ++ "\n\nThe user is also referring to previously processed documents. Document context:\n\n"
        ++ get_document_context documentHistory := by
    simp [buildEnhancedPrompt, hri, hrd, himg, hdoc, hm1, hm2]
  refine ⟨heq,
    chars "The user is referring to previously shared images. Here's the context of those images:\n\n",
    chars ("\n\nUser's question: " ++ msg
      ++ "\n\nThe user is also referring to previously processed documents. Document context:\n\n"),
    [], ?_⟩
  rw [heq]
  simp [chars_append, List.append_assoc]

/-- Witness for C8's amended theorem on "compare the image and the document". -/
theorem context_ordering_witness :
    referring_to_image "compare the image and the document" = true
    ∧ referring_to_document "compare the image and the document" = true
    ∧ ([some (⟨some "c", some "d"⟩ : ImageRecord)] : List (Option ImageRecord)) ≠ []
    ∧ ([some (⟨some "f", some "s", some "x"⟩ : DocRecord)] : List (Option DocRecord)) ≠ []
    ∧ containsKeyword "compare the image and the document" "tell me more" = false
    ∧ containsKeyword "compare the image and the document" "more details" = false
    ∧ buildEnhancedPrompt "compare the image and the document"
        [some ⟨some "c", some "d"⟩] [some ⟨some "f", some "s", some "x"⟩]
      = "The user is referring to previously shared images. Here's the context of those images:\n\n"
        ++ get_image_context [some ⟨some "c", some "d"⟩]
        ++ "\n\nUser's question: " ++ "compare the image and the document"
        ++ "\n\nThe user is also referring to previously processed documents. Document context:\n\n"
        ++ get_document_context [some ⟨some "f", some "s", some "x"⟩] :=
  ⟨by decide, by decide, by decide, by decide, by decide, by decide,
    (context_ordering_amended "compare the image and the document"
      [some ⟨some "c", some "d"⟩] [some ⟨some "f", some "s", some "x"⟩]
      (by decide) (by decide) (by decide) (by decide) (by decide) (by decide)).1⟩

/-- C9: a preferred-model value naming no registered handler, a `None`
preference, and a raising preference lookup all resolve to the Gemini path of
`handle_text_message`; the factory, which the text handler never consults
here, is the component that would raise on such a name. -/
theorem default_model_fallback :
    (∀ v : String, v ∉ registered_models →
        selectModelPath (resolve_preferred_model (.ok (some v))) = .gemini
        ∧ factory_get_model_handler v = .error ("Unknown model: " ++ v))
    ∧ selectModelPath (resolve_preferred_model (.ok none)) = .gemini
    ∧ selectModelPath (resolve_preferred_model .raised) = .gemini := by
  refine ⟨?_, by decide, by decide⟩
  intro v hv
  have hvd : v ≠ "deepseek" := by
    intro h
    subst h
    exact hv (by decide)
  constructor
  · simp [resolve_preferred_model, selectModelPath, hvd]
  · simp [factory_get_model_handler, hv]

/-- Witness for C9 at the claim's example value "nonexistent". -/
theorem default_model_fallback_witness :
    ("nonexistent" : String) ∉ registered_models
    ∧ selectModelPath (resolve_preferred_model (.ok (some "nonexistent"))) = .gemini
    ∧ factory_get_model_handler "nonexistent" = .error ("Unknown model: " ++ "nonexistent") :=
  ⟨by decide, (default_model_fallback.1 "nonexistent" (by decide)).1,
    (default_model_fallback.1 "nonexistent" (by decide)).2⟩

/-- C10: the handler's filter keeps only dict entries carrying both the
`role` and `content` keys; an entry failing the check never survives it; the
Gemini conversion produces a turn only from such entries; and the DeepSeek
message assembly is unchanged by pre-filtering, since it skips exactly the
same malformed entries. All four functions are total, so context assembly
cannot raise on malformed entries. -/
theorem malformed_turn_filtering (context : List HistEntry) :
    (∀ e ∈ filterValidContext context, ∃ role content,
        e = HistEntry.dict (some role) (some content))
    ∧ (∀ e ∈ context, isValidEntry e = false → e ∉ filterValidContext context)
    ∧ (∀ (e : HistEntry) (turn : ContentDict), toConvTurn e = some turn →
        ∃ role content, e = HistEntry.dict (some role) (some content))
    ∧ deepseekContextMessages context = deepseekContextMessages (filterValidContext context) := by
  refine ⟨?_, ?_, ?_, ?_⟩
  · intro e he
    have hv : isValidEntry e = true := (List.mem_filter.mp he).2
    match e, hv with
    | .dict (some role) (some content), _ => exact ⟨role, content, rfl⟩
  · intro e _ hv hmem
    have hv2 := (List.mem_filter.mp hmem).2
    rw [hv] at hv2
    exact absurd hv2 (by decide)
  · intro e turn ht
    match e, ht with
    | .dict (some role) (some content), _ => exact ⟨role, content, rfl⟩
  · induction context with
    | nil => rfl
    | cons e rest ih =>
      match e with
      | .invalid =>
        simpa [deepseekContextMessages, filterValidContext, List.filter_cons,
          isValidEntry] using ih
      | .dict none co =>
        simpa [deepseekContextMessages, filterValidContext, List.filter_cons,
          isValidEntry] using ih
      | .dict (some role) none =>
        simpa [deepseekContextMessages, filterValidContext, List.filter_cons,
          isValidEntry] using ih
      | .dict (some role) (some content) =>
        simpa [deepseekContextMessages, filterValidContext, List.filter_cons,
          isValidEntry] using ih

/-- Witness for C10 on a history holding a non-dict entry, a dict missing its
`role`, and one valid turn. -/
theorem malformed_turn_filtering_witness :
    HistEntry.invalid ∈ ([HistEntry.invalid,
        HistEntry.dict none (some "x"),
        HistEntry.dict (some "user") (some "hi")] : List HistEntry)
    ∧ isValidEntry HistEntry.invalid = false
    ∧ HistEntry.invalid ∉ filterValidContext [HistEntry.invalid,
        HistEntry.dict none (some "x"), HistEntry.dict (some "user") (some "hi")] :=
  ⟨by decide, by decide,
    (malformed_turn_filtering [HistEntry.invalid,
        HistEntry.dict none (some "x"),
        HistEntry.dict (some "user") (some "hi")]).2.1
      HistEntry.invalid (by decide) (by decide)⟩

end TGBot
